import Mathlib

set_option linter.unusedVariables false

deriving instance DecidableEq for Except

/-!
Shallow embedding of the three Ansible modules of this repository
(`proxmox_sdn_zones.py`, `proxmox_sdn_vnets.py`, `proxmox_sdn_subnets.py`).

Modelling conventions:
* Remote cluster state is a `Remote` record: the result of each listing
  endpoint (`Except` to model a raised transport/API exception) plus the
  result of any mutating call.
* Every modelled operation returns its result together with the ordered
  list of remote API calls it issued (`List ApiCall`), so that claims
  about "zero mutating calls" are claims about that trace.
* `module.exit_json` / `module.fail_json` terminate the whole invocation;
  this control flow is modelled by `ModResult` (a method either returns a
  value, `.cont`, or has already terminated the module, `.stop`).
* An uncaught Python exception (a listing call outside `try`, or an
  `AttributeError` from a missing method) is an `Outcome` of its own.
-/

/-- Values that appear in the keyword-argument payloads (`zone_infos`,
`vnet_infos`, `subnet_infos`) passed to the remote create calls. `num` is
an always-present integer (the coerced boolean flags), the other
constructors model optional parameters whose unsupplied value is None. -/
inductive PValue where
  | str (v : Option String)
  | int (v : Option Int)
  | num (v : Int)
  | strList (v : Option (List String))
  deriving Repr, DecidableEq

/-- An entry of the remote `cluster.sdn.zones.get()` listing; only the
`zone` identifier field is inspected by the modules. -/
structure ZoneEntry where
  zone : String
  deriving Repr, DecidableEq

/-- An entry of the remote `cluster.sdn.vnets.get()` listing; the modules
inspect the `vnet` identifier and the parent `zone` reference. -/
structure VnetEntry where
  vnet : String
  zone : String
  deriving Repr, DecidableEq

/-- An entry of the remote `cluster.sdn.vnets(v).subnets.get()` listing;
the modules inspect the `subnet` identifier and the parent `vnet`
reference. -/
structure SubnetEntry where
  subnet : String
  vnet : String
  deriving Repr, DecidableEq

/-- One remote API call, as issued by the modules. -/
inductive ApiCall where
  | listZones
  | listVnets
  | listSubnets (vnetId : String)
  | createZone (payload : List (String × PValue))
  | deleteZone (zoneId : String)
  | createVnet (payload : List (String × PValue))
  | deleteVnet (vnetId : String)
  | createSubnet (vnetId : String) (payload : List (String × PValue))
  | deleteSubnet (vnetId : String) (subnetId : String)
  deriving Repr, DecidableEq

/-- A call is mutating when it creates or deletes a remote resource;
the three listing calls are pure reads. -/
def ApiCall.isMutating : ApiCall → Bool
  | .listZones => false
  | .listVnets => false
  | .listSubnets _ => false
  | _ => true

/-- Terminal outcome of one module invocation.
`exited` models `module.exit_json` (structured success with a changed
flag), `failed` models `module.fail_json` (fatal error), `attrErr` an
uncaught Python AttributeError naming the missing attribute, `uncaught`
any other uncaught exception (e.g. a listing call outside `try`). -/
inductive Outcome where
  | exited (changed : Bool) (msg : String)
  | failed (msg : String)
  | attrErr (missing : String)
  | uncaught (e : String)
  deriving Repr, DecidableEq

/-- True for the outcomes that are fatal (fail_json or an uncaught
exception), false for a structured `exit_json` success. -/
def Outcome.isFatal : Outcome → Bool
  | .exited _ _ => false
  | .failed _ => true
  | .attrErr _ => true
  | .uncaught _ => true

/-- The changed flag of the final structured result, when the invocation
terminated via `exit_json`. -/
def Outcome.changedFlag : Outcome → Option Bool
  | .exited b _ => some b
  | _ => none

/-- Result of a modelled method: either it returned a value to its caller
(`cont`) or it already terminated the module invocation (`stop`). -/
inductive ModResult (α : Type) where
  | cont (a : α)
  | stop (o : Outcome)
  deriving Repr, DecidableEq

/-- One remote cluster, seen through the API endpoints the modules use.
Each listing endpoint either returns its current list or raises
(`Except.error`); `mutResult` gives the outcome of a mutating call. -/
structure Remote where
  zones : Except String (List ZoneEntry)
  vnets : Except String (List VnetEntry)
  subnetsOf : String → Except String (List SubnetEntry)
  mutResult : ApiCall → Except String Unit

/-- Model of the flag-coercion pattern repeated in each module body:
`str(module.params[flag]).lower() == "true"` selects 1 exactly when the
optional boolean parameter was supplied and true; an unsupplied parameter
(None) or a supplied false both coerce to 0. -/
def coerceBool : Option Bool → Int
  | some true => 1
  | _ => 0

namespace ProxmoxSdnZones

/-- Model of `ProxmoxSdnZones.is_sdn_zone_empty`
(src/proxmox_sdn_zones.py lines 180-191): lists `cluster.sdn.vnets` with
no surrounding try/except (a listing error propagates as an uncaught
exception), counts vnets whose `zone` field equals `zone_id`, and returns
true iff the count is zero. -/
def is_sdn_zone_empty (r : Remote) (zone_id : String) :
    Except String Bool × List ApiCall :=
  match r.vnets with
  | .error e => (.error e, [ApiCall.listVnets])
  | .ok data =>
      let value := data.foldl (fun v vnet => if vnet.zone == zone_id then v + 1 else v) 0
      (.ok (value == 0), [ApiCall.listVnets])

/-- Model of `ProxmoxSdnZones.is_sdn_zone_existing`
(src/proxmox_sdn_zones.py lines 193-206): lists `cluster.sdn.zones` and
linearly scans for a matching `zone` field; a listing exception is caught
and turned into `fail_json` with the message built by the source. -/
def is_sdn_zone_existing (r : Remote) (zone_id : String) :
    ModResult Bool × List ApiCall :=
  match r.zones with
  | .ok zones => (.cont (zones.any (fun zone => zone.zone == zone_id)), [ApiCall.listZones])
  | .error e => (.stop (.failed ("Unable to retrieve zones: " ++ e)), [ApiCall.listZones])

/-- Model of `ProxmoxSdnZones.create_update_sdn_zone`
(src/proxmox_sdn_zones.py lines 208-224): exits with changed=false when
the zone already exists, returns without mutating in check mode, and
otherwise posts the payload, turning a post exception into `fail_json`. -/
def create_update_sdn_zone (r : Remote) (check_mode : Bool) (zone_id : String)
    (zone_infos : List (String × PValue)) : ModResult Unit × List ApiCall :=
  match is_sdn_zone_existing r zone_id with
  | (.stop o, calls) => (.stop o, calls)
  | (.cont true, calls) =>
      (.stop (.exited false ("Zone " ++ zone_id ++ " already exists")), calls)
  | (.cont false, calls) =>
      if check_mode then
        (.cont (), calls)
      else
        match r.mutResult (ApiCall.createZone zone_infos) with
        | .ok _ => (.cont (), calls ++ [ApiCall.createZone zone_infos])
        | .error e =>
            (.stop (.failed ("Failed to create zone with ID " ++ zone_id ++ ": " ++ e)),
              calls ++ [ApiCall.createZone zone_infos])

/-- Model of `ProxmoxSdnZones.delete_sdn_zone`
(src/proxmox_sdn_zones.py lines 226-244): exits with changed=false when
the zone does not exist; when it exists and is empty, returns without
mutating in check mode and otherwise deletes (a delete exception becomes
`fail_json`); when it exists and still has vnets, fails with the
remove-vnets-first message. -/
def delete_sdn_zone (r : Remote) (check_mode : Bool) (zone_id : String) :
    ModResult Unit × List ApiCall :=
  match is_sdn_zone_existing r zone_id with
  | (.stop o, calls) => (.stop o, calls)
  | (.cont false, calls) =>
      (.stop (.exited false ("Zone " ++ zone_id ++ " doesn't exist")), calls)
  | (.cont true, calls) =>
      match is_sdn_zone_empty r zone_id with
      | (.error e, calls2) => (.stop (.uncaught e), calls ++ calls2)
      | (.ok true, calls2) =>
          if check_mode then
            (.cont (), calls ++ calls2)
          else
            match r.mutResult (ApiCall.deleteZone zone_id) with
            | .ok _ => (.cont (), calls ++ calls2 ++ [ApiCall.deleteZone zone_id])
            | .error e =>
                (.stop (.failed ("Failed to delete zone with ID " ++ zone_id ++ ": " ++ e)),
                  calls ++ calls2 ++ [ApiCall.deleteZone zone_id])
      | (.ok false, calls2) =>
          (.stop (.failed ("Can't delete zone " ++ zone_id ++
            " with vnets. Please remove vnets from zone first.")), calls ++ calls2)

end ProxmoxSdnZones

/-- Parameters of the zone module, as declared in its `argument_spec`
(src/proxmox_sdn_zones.py lines 249-280). Hyphenated parameter names are
written with underscores; defaults mirror the argument spec (`state`
defaults to the string "query", `vlan-protocol` to "802.1q", every
optional parameter to None). -/
structure ZoneParams where
  state : String := "query"
  zone : String
  type : String
  advertise_subnets : Option Bool := none
  bridge : Option String := none
  bridge_disable_mac_learning : Option Bool := none
  controller : Option String := none
  dhcp : Option String := none
  digest : Option String := none
  disable_arp_nd_suppression : Option Bool := none
  dns : Option String := none
  dnszone : Option String := none
  dp_id : Option String := none
  exitnodes : Option String := none
  exitnodes_local_routing : Option Bool := none
  exitnodes_primary : Option String := none
  ipam : Option String := none
  mac : Option String := none
  mtu : Option Int := none
  nodes : Option String := none
  peers : Option String := none
  reversedns : Option String := none
  rt_import : Option String := none
  tag : Option Int := none
  vlan_protocol : String := "802.1q"
  vrf_vxlan : Option Int := none
  vxlan_port : Option Int := none
  deriving Repr, DecidableEq

/-- Model of the `zone_infos` dict built in the zone module's `main`
(src/proxmox_sdn_zones.py lines 316-343): every declared parameter is
included, with the four boolean flags coerced to 0/1. -/
def zone_infos (p : ZoneParams) : List (String × PValue) :=
  [("zone", PValue.str (some p.zone)),
   ("type", PValue.str (some p.type)),
   ("advertise-subnets", PValue.num (coerceBool p.advertise_subnets)),
   ("bridge", PValue.str p.bridge),
   ("bridge-disable-mac-learning", PValue.num (coerceBool p.bridge_disable_mac_learning)),
   ("controller", PValue.str p.controller),
   ("dhcp", PValue.str p.dhcp),
   ("digest", PValue.str p.digest),
   ("disable-arp-nd-suppression", PValue.num (coerceBool p.disable_arp_nd_suppression)),
   ("dns", PValue.str p.dns),
   ("dnszone", PValue.str p.dnszone),
   ("dp-id", PValue.str p.dp_id),
   ("exitnodes", PValue.str p.exitnodes),
   ("exitnodes-primary", PValue.str p.exitnodes_primary),
   ("exitnodes-local-routing", PValue.num (coerceBool p.exitnodes_local_routing)),
   ("ipam", PValue.str p.ipam),
   ("mac", PValue.str p.mac),
   ("mtu", PValue.int p.mtu),
   ("nodes", PValue.str p.nodes),
   ("peers", PValue.str p.peers),
   ("reversedns", PValue.str p.reversedns),
   ("rt-import", PValue.str p.rt_import),
   ("tag", PValue.int p.tag),
   ("vlan-protocol", PValue.str (some p.vlan_protocol)),
   ("vrf-vxlan", PValue.int p.vrf_vxlan),
   ("vxlan-port", PValue.int p.vxlan_port)]

/-- The `unexpected_properties` list of the zone module's `main`
(src/proxmox_sdn_zones.py lines 346-352): keys popped from the payload
when the zone type is "simple". -/
def unexpected_properties : List String :=
  ["vlan-protocol", "advertise-subnets", "exitnodes-local-routing",
   "bridge-disable-mac-learning", "disable-arp-nd-suppression"]

/-- The payload actually passed to the create call: `zone_infos` with the
`unexpected_properties` keys popped when the zone type is "simple"
(src/proxmox_sdn_zones.py lines 345-354). -/
def zone_infos_filtered (p : ZoneParams) : List (String × PValue) :=
  if p.type == "simple" then
    (zone_infos p).filter (fun kv => !(unexpected_properties.contains kv.fst))
  else
    zone_infos p

/-- Model of the zone module's `main` (src/proxmox_sdn_zones.py lines
247-369): builds and filters the payload, dispatches on `state`, and
reports changed=true with the creating/deleting message whenever the
dispatcher returned normally; any other `state` value falls through to
`exit_json` on the initial result (changed=false, empty message). -/
def zones_main (r : Remote) (check_mode : Bool) (p : ZoneParams) :
    Outcome × List ApiCall :=
  let infos := zone_infos_filtered p
  if p.state == "present" then
    match ProxmoxSdnZones.create_update_sdn_zone r check_mode p.zone infos with
    | (.stop o, calls) => (o, calls)
    | (.cont _, calls) => (.exited true ("Creating/updating zone ID: " ++ p.zone), calls)
  else if p.state == "absent" then
    match ProxmoxSdnZones.delete_sdn_zone r check_mode p.zone with
    | (.stop o, calls) => (o, calls)
    | (.cont _, calls) => (.exited true ("Deleting zone ID: " ++ p.zone), calls)
  else
    (.exited false "", [])

namespace ProxmoxSdnVnets

/-- Model of `ProxmoxSdnVnets.is_sdn_vnet_empty`
(src/proxmox_sdn_vnets.py lines 59-70): lists
`cluster.sdn.vnets(vnet_id).subnets` with no surrounding try/except,
counts subnets whose `vnet` field equals `vnet_id`, and returns true iff
the count is zero. -/
def is_sdn_vnet_empty (r : Remote) (vnet_id : String) :
    Except String Bool × List ApiCall :=
  match r.subnetsOf vnet_id with
  | .error e => (.error e, [ApiCall.listSubnets vnet_id])
  | .ok data =>
      let value := data.foldl (fun v subnet => if subnet.vnet == vnet_id then v + 1 else v) 0
      (.ok (value == 0), [ApiCall.listSubnets vnet_id])

/-- Model of `ProxmoxSdnVnets.is_sdn_vnet_existing`
(src/proxmox_sdn_vnets.py lines 72-85): lists `cluster.sdn.vnets` and
linearly scans for a matching `vnet` field; a listing exception is caught
and turned into `fail_json`. -/
def is_sdn_vnet_existing (r : Remote) (vnet_id : String) :
    ModResult Bool × List ApiCall :=
  match r.vnets with
  | .ok vnets => (.cont (vnets.any (fun vnet => vnet.vnet == vnet_id)), [ApiCall.listVnets])
  | .error e => (.stop (.failed ("Unable to retrieve vnets: " ++ e)), [ApiCall.listVnets])

/-- Model of `ProxmoxSdnVnets.create_update_sdn_vnet`
(src/proxmox_sdn_vnets.py lines 87-103): exits with changed=false when
the vnet already exists, returns without mutating in check mode, and
otherwise posts the payload, turning a post exception into `fail_json`. -/
def create_update_sdn_vnet (r : Remote) (check_mode : Bool) (vnet_id : String)
    (vnet_infos : List (String × PValue)) : ModResult Unit × List ApiCall :=
  match is_sdn_vnet_existing r vnet_id with
  | (.stop o, calls) => (.stop o, calls)
  | (.cont true, calls) =>
      (.stop (.exited false ("Vnet " ++ vnet_id ++ " already exists")), calls)
  | (.cont false, calls) =>
      if check_mode then
        (.cont (), calls)
      else
        match r.mutResult (ApiCall.createVnet vnet_infos) with
        | .ok _ => (.cont (), calls ++ [ApiCall.createVnet vnet_infos])
        | .error e =>
            (.stop (.failed ("Failed to create vnet with ID " ++ vnet_id ++ ": " ++ e)),
              calls ++ [ApiCall.createVnet vnet_infos])

/-- Model of `ProxmoxSdnVnets.delete_sdn_vnet`
(src/proxmox_sdn_vnets.py lines 105-123). Note that the vnet module's
`main` never invokes this method (its absent branch makes no call at
all); it is modelled here exactly as written because it exists in the
source. -/
def delete_sdn_vnet (r : Remote) (check_mode : Bool) (vnet_id : String) :
    ModResult Unit × List ApiCall :=
  match is_sdn_vnet_existing r vnet_id with
  | (.stop o, calls) => (.stop o, calls)
  | (.cont false, calls) =>
      (.stop (.exited false ("Vnet " ++ vnet_id ++ " doesn't exist")), calls)
  | (.cont true, calls) =>
      match is_sdn_vnet_empty r vnet_id with
      | (.error e, calls2) => (.stop (.uncaught e), calls ++ calls2)
      | (.ok true, calls2) =>
          if check_mode then
            (.cont (), calls ++ calls2)
          else
            match r.mutResult (ApiCall.deleteVnet vnet_id) with
            | .ok _ => (.cont (), calls ++ calls2 ++ [ApiCall.deleteVnet vnet_id])
            | .error e =>
                (.stop (.failed ("Failed to delete vnet with ID " ++ vnet_id ++ ": " ++ e)),
                  calls ++ calls2 ++ [ApiCall.deleteVnet vnet_id])
      | (.ok false, calls2) =>
          (.stop (.failed ("Can't delete vnet " ++ vnet_id ++
            " with subnets. Please remove subnets from vnet first.")), calls ++ calls2)

end ProxmoxSdnVnets

/-- Parameters of the vnet module, as declared in its `argument_spec`
(src/proxmox_sdn_vnets.py lines 128-139). -/
structure VnetParams where
  state : String := "query"
  vnet : String
  zone : String
  alias' : Option String := none
  tag : Option Int := none
  type : Option String := none
  vlanaware : Option Bool := none
  deriving Repr, DecidableEq

/-- Model of the `vnet_infos` dict built in the vnet module's `main`
(src/proxmox_sdn_vnets.py lines 158-165), with `vlanaware` coerced to
0/1. -/
def vnet_infos (p : VnetParams) : List (String × PValue) :=
  [("vnet", PValue.str (some p.vnet)),
   ("zone", PValue.str (some p.zone)),
   ("alias", PValue.str p.alias'),
   ("tag", PValue.int p.tag),
   ("type", PValue.str p.type),
   ("vlanaware", PValue.num (coerceBool p.vlanaware))]

/-- Model of the vnet module's `main` (src/proxmox_sdn_vnets.py lines
125-179). The present branch dispatches to `create_update_sdn_vnet`; the
absent branch (lines 174-177) only sets changed=true and the deleting
message without invoking `delete_sdn_vnet` or any remote call, exactly as
in the source. -/
def vnets_main (r : Remote) (check_mode : Bool) (p : VnetParams) :
    Outcome × List ApiCall :=
  let infos := vnet_infos p
  if p.state == "present" then
    match ProxmoxSdnVnets.create_update_sdn_vnet r check_mode p.vnet infos with
    | (.stop o, calls) => (o, calls)
    | (.cont _, calls) => (.exited true ("Creating/updating vnet ID: " ++ p.vnet), calls)
  else if p.state == "absent" then
    (.exited true ("Deleting vnet ID: " ++ p.vnet), [])
  else
    (.exited false "", [])

namespace ProxmoxSdnSubnets

/-- Model of `ProxmoxSdnSubnets.is_sdn_subnet_existing`
(src/proxmox_sdn_subnets.py lines 89-103): lists
`cluster.sdn.vnets(vnet_id).subnets` and linearly scans for a matching
`subnet` field; a listing exception is caught and turned into
`fail_json`. -/
def is_sdn_subnet_existing (r : Remote) (subnet_id vnet_id : String) :
    ModResult Bool × List ApiCall :=
  match r.subnetsOf vnet_id with
  | .ok subnets =>
      (.cont (subnets.any (fun subnet => subnet.subnet == subnet_id)),
        [ApiCall.listSubnets vnet_id])
  | .error e =>
      (.stop (.failed ("Unable to retrieve subnets: " ++ e)), [ApiCall.listSubnets vnet_id])

/-- Model of `ProxmoxSdnSubnets.create_update_sdn_subnet`
(src/proxmox_sdn_subnets.py lines 105-120): exits with changed=false when
the subnet already exists, returns without mutating in check mode, and
otherwise posts the payload, turning a post exception into `fail_json`. -/
def create_update_sdn_subnet (r : Remote) (check_mode : Bool)
    (subnet_id vnet_id : String) (subnet_infos : List (String × PValue)) :
    ModResult Unit × List ApiCall :=
  match is_sdn_subnet_existing r subnet_id vnet_id with
  | (.stop o, calls) => (.stop o, calls)
  | (.cont true, calls) =>
      (.stop (.exited false ("Subnet " ++ subnet_id ++ " already exists")), calls)
  | (.cont false, calls) =>
      if check_mode then
        (.cont (), calls)
      else
        match r.mutResult (ApiCall.createSubnet vnet_id subnet_infos) with
        | .ok _ => (.cont (), calls ++ [ApiCall.createSubnet vnet_id subnet_infos])
        | .error e =>
            (.stop (.failed ("Failed to create subnet with ID " ++ subnet_id ++ ": " ++ e)),
              calls ++ [ApiCall.createSubnet vnet_id subnet_infos])

/-- Model of `ProxmoxSdnSubnets.delete_sdn_vnet`
(src/proxmox_sdn_subnets.py lines 122-138), the subnet delete dispatcher
(misnamed in the source). When the subnet does not exist it exits with
changed=false, with a message that interpolates the vnet id where the
subnet id was intended (source line 130). When the subnet exists, the
source calls `self.is_sdn_vnet_empty(vnet_id)` (line 131); neither
`ProxmoxSdnSubnets` nor the `ProxmoxAnsible` base class defines an
`is_sdn_vnet_empty` attribute, so this attribute lookup raises an
uncaught AttributeError and the rest of the method (lines 132-138) is
unreachable. -/
def delete_sdn_vnet (r : Remote) (check_mode : Bool) (subnet_id vnet_id : String) :
    ModResult Unit × List ApiCall :=
  match is_sdn_subnet_existing r subnet_id vnet_id with
  | (.stop o, calls) => (.stop o, calls)
  | (.cont false, calls) =>
      (.stop (.exited false ("Subnet " ++ vnet_id ++ " doesn't exist")), calls)
  | (.cont true, calls) =>
      (.stop (.attrErr "is_sdn_vnet_empty"), calls)

end ProxmoxSdnSubnets

/-- Parameters of the subnet module, as declared in its `argument_spec`
(src/proxmox_sdn_subnets.py lines 144-157); `type` defaults to the string
"subnet" and `state` is required there, taking "present" or "absent". -/
structure SubnetParams where
  state : String
  subnet : String
  type : String := "subnet"
  vnet : String
  dhcp_dns_server : Option String := none
  dhcp_range : Option (List String) := none
  dnszoneprefix : Option String := none
  gateway : Option String := none
  snat : Option Bool := none
  deriving Repr, DecidableEq

/-- Model of the `subnet_infos` dict built in the subnet module's `main`
(src/proxmox_sdn_subnets.py lines 177-186), with `snat` coerced to 0/1. -/
def subnet_infos (p : SubnetParams) : List (String × PValue) :=
  [("subnet", PValue.str (some p.subnet)),
   ("type", PValue.str (some p.type)),
   ("vnet", PValue.str (some p.vnet)),
   ("dhcp-dns-server", PValue.str p.dhcp_dns_server),
   ("dhcp-range", PValue.strList p.dhcp_range),
   ("dnszoneprefix", PValue.str p.dnszoneprefix),
   ("gateway", PValue.str p.gateway),
   ("snat", PValue.num (coerceBool p.snat))]

/-- Model of the subnet module's `main` (src/proxmox_sdn_subnets.py lines
140-201): the present branch dispatches to `create_update_sdn_subnet`,
the absent branch to the subnet delete dispatcher `delete_sdn_vnet`. -/
def subnets_main (r : Remote) (check_mode : Bool) (p : SubnetParams) :
    Outcome × List ApiCall :=
  let infos := subnet_infos p
  if p.state == "present" then
    match ProxmoxSdnSubnets.create_update_sdn_subnet r check_mode p.subnet p.vnet infos with
    | (.stop o, calls) => (o, calls)
    | (.cont _, calls) => (.exited true ("Creating/updating subnet ID: " ++ p.subnet), calls)
  else if p.state == "absent" then
    match ProxmoxSdnSubnets.delete_sdn_vnet r check_mode p.subnet p.vnet with
    | (.stop o, calls) => (o, calls)
    | (.cont _, calls) => (.exited true ("Deleting subnet ID: " ++ p.subnet), calls)
  else
    (.exited false "", [])

/-- Character-list test used by `containsSub`: does the first list start
the second? -/
def isPrefixL : List Char → List Char → Bool
  | [], _ => true
  | _ :: _, [] => false
  | a :: as, b :: bs => a == b && isPrefixL as bs

/-- Auxiliary scan for `containsSub` over the haystack character list. -/
def containsSubAux (n : List Char) : List Char → Bool
  | [] => isPrefixL n []
  | c :: cs => isPrefixL n (c :: cs) || containsSubAux n cs

/-- True when `needle` occurs as a contiguous substring of `hay`; used to
state whether an error message mentions an identifier or a cause. -/
def containsSub (needle hay : String) : Bool :=
  containsSubAux needle.data hay.data

/-- A remote cluster with no zones, vnets or subnets, every call
succeeding. -/
def remoteEmpty : Remote :=
  { zones := .ok [], vnets := .ok [], subnetsOf := fun _ => .ok [],
    mutResult := fun _ => .ok () }

/-- A remote cluster holding zone "zone-01", vnet "myvnet" inside
"zone-01", and subnet "172.16.10.0/24" inside "myvnet"; every call
succeeds. -/
def remotePopulated : Remote :=
  { zones := .ok [{ zone := "zone-01" }],
    vnets := .ok [{ vnet := "myvnet", zone := "zone-01" }],
    subnetsOf := fun v =>
      if v == "myvnet" then .ok [{ subnet := "172.16.10.0/24", vnet := "myvnet" }]
      else .ok [],
    mutResult := fun _ => .ok () }

/-- A remote cluster whose every listing endpoint raises the exception
"boom". -/
def remoteBoom : Remote :=
  { zones := .error "boom", vnets := .error "boom",
    subnetsOf := fun _ => .error "boom", mutResult := fun _ => .ok () }

/-- Concrete zone parameters: present state, id "zone-01", type
"simple", no optional attribute supplied. -/
def zpSimple : ZoneParams := { state := "present", zone := "zone-01", type := "simple" }

/-- Concrete zone parameters: present state, id "zone-01", type "vlan". -/
def zpVlan : ZoneParams := { state := "present", zone := "zone-01", type := "vlan" }

/-- Concrete zone parameters: absent state, id "zone-01", type "vlan". -/
def zpVlanAbsent : ZoneParams := { state := "absent", zone := "zone-01", type := "vlan" }

/-- Concrete vnet parameters: present state, id "myvnet" in zone
"zone-01". -/
def vpPresent : VnetParams := { state := "present", vnet := "myvnet", zone := "zone-01" }

/-- Concrete vnet parameters: absent state, id "myvnet" in zone
"zone-01". -/
def vpAbsent : VnetParams := { state := "absent", vnet := "myvnet", zone := "zone-01" }

/-- Concrete subnet parameters: present state, id "172.16.10.0/24" in
vnet "myvnet". -/
def spPresent : SubnetParams := { state := "present", subnet := "172.16.10.0/24", vnet := "myvnet" }

/-- Concrete subnet parameters: absent state, id "172.16.10.0/24" in
vnet "myvnet". -/
def spAbsent : SubnetParams := { state := "absent", subnet := "172.16.10.0/24", vnet := "myvnet" }

/-- The zone existence checker always issues exactly one zone listing
call, whatever the listing returned. -/
theorem zone_existing_trace (r : Remote) (zid : String) :
    (ProxmoxSdnZones.is_sdn_zone_existing r zid).2 = [ApiCall.listZones] := by
  unfold ProxmoxSdnZones.is_sdn_zone_existing
  rcases r.zones with e | l <;> rfl

/-- The zone emptiness checker always issues exactly one vnet listing
call. -/
theorem zone_empty_trace (r : Remote) (zid : String) :
    (ProxmoxSdnZones.is_sdn_zone_empty r zid).2 = [ApiCall.listVnets] := by
  unfold ProxmoxSdnZones.is_sdn_zone_empty
  rcases r.vnets with e | l <;> rfl

/-- The vnet existence checker always issues exactly one vnet listing
call. -/
theorem vnet_existing_trace (r : Remote) (vid : String) :
    (ProxmoxSdnVnets.is_sdn_vnet_existing r vid).2 = [ApiCall.listVnets] := by
  unfold ProxmoxSdnVnets.is_sdn_vnet_existing
  rcases r.vnets with e | l <;> rfl

/-- The vnet emptiness checker always issues exactly one subnet listing
call, scoped to the vnet. -/
theorem vnet_empty_trace (r : Remote) (vid : String) :
    (ProxmoxSdnVnets.is_sdn_vnet_empty r vid).2 = [ApiCall.listSubnets vid] := by
  unfold ProxmoxSdnVnets.is_sdn_vnet_empty
  rcases r.subnetsOf vid with e | l <;> rfl

/-- The subnet existence checker always issues exactly one subnet
listing call, scoped to the vnet. -/
theorem subnet_existing_trace (r : Remote) (sid vid : String) :
    (ProxmoxSdnSubnets.is_sdn_subnet_existing r sid vid).2 = [ApiCall.listSubnets vid] := by
  unfold ProxmoxSdnSubnets.is_sdn_subnet_existing
  rcases r.subnetsOf vid with e | l <;> rfl

/-- In check mode the zone create/update dispatcher issues only the zone
listing call, never a mutating one. -/
theorem zones_create_dry_trace (r : Remote) (zid : String) (infos : List (String × PValue)) :
    ((ProxmoxSdnZones.create_update_sdn_zone r true zid infos).2.all
      fun c => !c.isMutating) = true := by
  have ht := zone_existing_trace r zid
  unfold ProxmoxSdnZones.create_update_sdn_zone
  split
  · rename_i o calls heq
    rw [heq] at ht; simp only at ht; subst ht; rfl
  · rename_i calls heq
    rw [heq] at ht; simp only at ht; subst ht; rfl
  · rename_i calls heq
    rw [heq] at ht; simp only at ht; subst ht; rfl

/-- In check mode the zone delete dispatcher issues only listing calls,
never a mutating one. -/
theorem zones_delete_dry_trace (r : Remote) (zid : String) :
    ((ProxmoxSdnZones.delete_sdn_zone r true zid).2.all
      fun c => !c.isMutating) = true := by
  have ht := zone_existing_trace r zid
  have he := zone_empty_trace r zid
  unfold ProxmoxSdnZones.delete_sdn_zone
  split
  · rename_i o calls heq
    rw [heq] at ht; simp only at ht; subst ht; rfl
  · rename_i calls heq
    rw [heq] at ht; simp only at ht; subst ht; rfl
  · rename_i calls heq
    rw [heq] at ht; simp only at ht; subst ht
    split
    · rename_i e calls2 heq2
      rw [heq2] at he; simp only at he; subst he; rfl
    · rename_i calls2 heq2
      rw [heq2] at he; simp only at he; subst he; rfl
    · rename_i calls2 heq2
      rw [heq2] at he; simp only at he; subst he; rfl

/-- In check mode the zone module issues no mutating call, whatever the
state parameter and the remote contents. -/
theorem zones_dry_run_no_mut (r : Remote) (p : ZoneParams) :
    ((zones_main r true p).2.all fun c => !c.isMutating) = true := by
  have hc := zones_create_dry_trace r p.zone (zone_infos_filtered p)
  have hd := zones_delete_dry_trace r p.zone
  unfold zones_main
  dsimp only
  split
  · split
    · rename_i o calls heq
      rw [heq] at hc; simpa using hc
    · rename_i a calls heq
      rw [heq] at hc; simpa using hc
  · split
    · split
      · rename_i o calls heq
        rw [heq] at hd; simpa using hd
      · rename_i a calls heq
        rw [heq] at hd; simpa using hd
    · rfl

/-- In check mode the vnet create/update dispatcher issues only the vnet
listing call, never a mutating one. -/
theorem vnets_create_dry_trace (r : Remote) (vid : String) (infos : List (String × PValue)) :
    ((ProxmoxSdnVnets.create_update_sdn_vnet r true vid infos).2.all
      fun c => !c.isMutating) = true := by
  have ht := vnet_existing_trace r vid
  unfold ProxmoxSdnVnets.create_update_sdn_vnet
  split
  · rename_i o calls heq
    rw [heq] at ht; simp only at ht; subst ht; rfl
  · rename_i calls heq
    rw [heq] at ht; simp only at ht; subst ht; rfl
  · rename_i calls heq
    rw [heq] at ht; simp only at ht; subst ht; rfl

/-- In check mode the vnet module issues no mutating call, whatever the
state parameter and the remote contents (its absent branch issues no
call at all). -/
theorem vnets_dry_run_no_mut (r : Remote) (p : VnetParams) :
    ((vnets_main r true p).2.all fun c => !c.isMutating) = true := by
  have hc := vnets_create_dry_trace r p.vnet (vnet_infos p)
  unfold vnets_main
  dsimp only
  split
  · split
    · rename_i o calls heq
      rw [heq] at hc; simpa using hc
    · rename_i a calls heq
      rw [heq] at hc; simpa using hc
  · split
    · rfl
    · rfl

/-- In check mode the subnet create/update dispatcher issues only the
subnet listing call, never a mutating one. -/
theorem subnets_create_dry_trace (r : Remote) (sid vid : String) (infos : List (String × PValue)) :
    ((ProxmoxSdnSubnets.create_update_sdn_subnet r true sid vid infos).2.all
      fun c => !c.isMutating) = true := by
  have ht := subnet_existing_trace r sid vid
  unfold ProxmoxSdnSubnets.create_update_sdn_subnet
  split
  · rename_i o calls heq
    rw [heq] at ht; simp only at ht; subst ht; rfl
  · rename_i calls heq
    rw [heq] at ht; simp only at ht; subst ht; rfl
  · rename_i calls heq
    rw [heq] at ht; simp only at ht; subst ht; rfl

/-- The subnet delete dispatcher issues only the subnet listing call in
every case (when the subnet exists the missing `is_sdn_vnet_empty`
attribute aborts it before any delete), in or out of check mode. -/
theorem subnets_delete_trace (r : Remote) (cm : Bool) (sid vid : String) :
    ((ProxmoxSdnSubnets.delete_sdn_vnet r cm sid vid).2.all
      fun c => !c.isMutating) = true := by
  have ht := subnet_existing_trace r sid vid
  unfold ProxmoxSdnSubnets.delete_sdn_vnet
  split
  · rename_i o calls heq
    rw [heq] at ht; simp only at ht; subst ht; rfl
  · rename_i calls heq
    rw [heq] at ht; simp only at ht; subst ht; rfl
  · rename_i calls heq
    rw [heq] at ht; simp only at ht; subst ht; rfl

/-- In check mode the subnet module issues no mutating call, whatever
the state parameter and the remote contents. -/
theorem subnets_dry_run_no_mut (r : Remote) (p : SubnetParams) :
    ((subnets_main r true p).2.all fun c => !c.isMutating) = true := by
  have hc := subnets_create_dry_trace r p.subnet p.vnet (subnet_infos p)
  have hd := subnets_delete_trace r true p.subnet p.vnet
  unfold subnets_main
  dsimp only
  split
  · split
    · rename_i o calls heq
      rw [heq] at hc; simpa using hc
    · rename_i a calls heq
      rw [heq] at hc; simpa using hc
  · split
    · split
      · rename_i o calls heq
        rw [heq] at hd; simpa using hd
      · rename_i a calls heq
        rw [heq] at hd; simpa using hd
    · rfl

/-- C3: for every resource kind, every state value and every remote
existence/emptiness configuration, an invocation with the check-mode flag
set never issues a create or delete remote call. -/
theorem C3_dry_run_never_mutates (r : Remote) (pz : ZoneParams) (pv : VnetParams)
    (ps : SubnetParams) :
    ((zones_main r true pz).2.all fun c => !c.isMutating) = true ∧
    ((vnets_main r true pv).2.all fun c => !c.isMutating) = true ∧
    ((subnets_main r true ps).2.all fun c => !c.isMutating) = true :=
  ⟨zones_dry_run_no_mut r pz, vnets_dry_run_no_mut r pv, subnets_dry_run_no_mut r ps⟩

/-- C1: evaluation of the vnet module at the failing input. The vnet
"myvnet" exists and has one subnet child, yet the absent-state invocation
terminates successfully (exit_json with changed=true and the deleting
message), is not fatal, and issues no remote call at all: the module's
absent branch never invokes `delete_sdn_vnet`, so the claimed fatal
remove-children-first error never happens for vnets. -/
theorem C1_vnet_absent_with_child_no_fatal_error :
    (ProxmoxSdnVnets.is_sdn_vnet_existing remotePopulated "myvnet").1 = .cont true ∧
    (ProxmoxSdnVnets.is_sdn_vnet_empty remotePopulated "myvnet").1 = .ok false ∧
    vnets_main remotePopulated false vpAbsent
      = (.exited true "Deleting vnet ID: myvnet", []) ∧
    (vnets_main remotePopulated false vpAbsent).1.isFatal = false := by
  refine ⟨by decide, by decide, by decide, by decide⟩

/-- C2: evaluation of the vnet module at the failing input. No vnet
exists remotely, yet the absent-state invocation reports changed=true
(instead of the claimed changed=false); it does issue zero remote calls.
The zone and subnet modules conform (changed=false with zero mutating
calls), as also evaluated here. -/
theorem C2_vnet_absent_nonexistent_changed_true :
    (ProxmoxSdnVnets.is_sdn_vnet_existing remoteEmpty "myvnet").1 = .cont false ∧
    vnets_main remoteEmpty false vpAbsent
      = (.exited true "Deleting vnet ID: myvnet", []) ∧
    (vnets_main remoteEmpty false vpAbsent).1.changedFlag = some true ∧
    zones_main remoteEmpty false zpVlanAbsent
      = (.exited false "Zone zone-01 doesn't exist", [ApiCall.listZones]) ∧
    subnets_main remoteEmpty false spAbsent
      = (.exited false "Subnet myvnet doesn't exist", [ApiCall.listSubnets "myvnet"]) := by
  refine ⟨by decide, by decide, by decide, by decide, by decide⟩

/-- C4: for the subnet resource kind, an absent-state invocation
targeting a subnet that exists in the remote collection terminates with
the unhandled attribute-lookup error on `is_sdn_vnet_empty` (not defined
on the subnet handler class), after only the subnet listing call and
before any delete call. -/
theorem C4_subnet_absent_existing_attr_error (r : Remote) (cm : Bool) (p : SubnetParams)
    (hst : p.state = "absent")
    (hex : (ProxmoxSdnSubnets.is_sdn_subnet_existing r p.subnet p.vnet).1 = .cont true) :
    subnets_main r cm p = (.attrErr "is_sdn_vnet_empty", [ApiCall.listSubnets p.vnet]) := by
  have ht := subnet_existing_trace r p.subnet p.vnet
  have h2 : ProxmoxSdnSubnets.is_sdn_subnet_existing r p.subnet p.vnet
      = (.cont true, [ApiCall.listSubnets p.vnet]) := by
    rcases h : ProxmoxSdnSubnets.is_sdn_subnet_existing r p.subnet p.vnet with ⟨mr, calls⟩
    rw [h] at hex ht
    simp only at hex ht
    rw [hex, ht]
  unfold subnets_main ProxmoxSdnSubnets.delete_sdn_vnet
  dsimp only
  rw [hst, h2]
  rfl

/-- Witness for C4 at a concrete input: the populated remote holds the
subnet "172.16.10.0/24" inside "myvnet", and the absent-state invocation
ends in the AttributeError outcome with only the listing call issued. -/
theorem C4_subnet_absent_existing_attr_error_witness :
    spAbsent.state = "absent" ∧
    (ProxmoxSdnSubnets.is_sdn_subnet_existing remotePopulated spAbsent.subnet spAbsent.vnet).1
      = .cont true ∧
    subnets_main remotePopulated false spAbsent
      = (.attrErr "is_sdn_vnet_empty", [ApiCall.listSubnets spAbsent.vnet]) :=
  ⟨rfl, by decide,
    C4_subnet_absent_existing_attr_error remotePopulated false spAbsent rfl (by decide)⟩

/-- C5 counterexample: a present-state invocation in check mode on a
not-yet-existing zone id terminates successfully, but the final
structured result carries changed=true, not the claimed changed=false
(the dispatcher returns early and the outer layer unconditionally
reports changed=true); no remote mutation is performed. -/
theorem C5_counterexample_dry_run_changed_true :
    zones_main remoteEmpty true zpVlan
      = (.exited true "Creating/updating zone ID: zone-01", [ApiCall.listZones]) ∧
    (zones_main remoteEmpty true zpVlan).1.changedFlag = some true := by
  refine ⟨by decide, by decide⟩

/-- C5 (amended): for every resource kind, a present-state invocation in
check mode on a not-yet-existing identifier terminates successfully with
changed=true in the final structured result (the dry-run early return
leaves the outer layer to report changed=true) and performs no remote
mutation: only the one listing call is issued. -/
theorem C5_amended_dry_run_present_new (r : Remote)
    (pz : ZoneParams) (pv : VnetParams) (ps : SubnetParams)
    (lz : List ZoneEntry) (lv : List VnetEntry) (ls : List SubnetEntry)
    (hzst : pz.state = "present") (hvst : pv.state = "present") (hsst : ps.state = "present")
    (hz : r.zones = .ok lz) (hv : r.vnets = .ok lv) (hs : r.subnetsOf ps.vnet = .ok ls)
    (hzex : (lz.any fun z => z.zone == pz.zone) = false)
    (hvex : (lv.any fun v => v.vnet == pv.vnet) = false)
    (hsex : (ls.any fun s => s.subnet == ps.subnet) = false) :
    zones_main r true pz
      = (.exited true ("Creating/updating zone ID: " ++ pz.zone), [ApiCall.listZones]) ∧
    vnets_main r true pv
      = (.exited true ("Creating/updating vnet ID: " ++ pv.vnet), [ApiCall.listVnets]) ∧
    subnets_main r true ps
      = (.exited true ("Creating/updating subnet ID: " ++ ps.subnet),
          [ApiCall.listSubnets ps.vnet]) := by
  refine ⟨?_, ?_, ?_⟩
  · unfold zones_main ProxmoxSdnZones.create_update_sdn_zone
      ProxmoxSdnZones.is_sdn_zone_existing
    simp [hzst, hz, hzex]
  · unfold vnets_main ProxmoxSdnVnets.create_update_sdn_vnet
      ProxmoxSdnVnets.is_sdn_vnet_existing
    simp [hvst, hv, hvex]
  · unfold subnets_main ProxmoxSdnSubnets.create_update_sdn_subnet
      ProxmoxSdnSubnets.is_sdn_subnet_existing
    simp [hsst, hs, hsex]

/-- Witness for the amended C5 at concrete inputs: the empty remote and
the three present-state parameter records, discharging every
hypothesis. -/
theorem C5_amended_dry_run_present_new_witness :
    zones_main remoteEmpty true zpSimple
      = (.exited true ("Creating/updating zone ID: " ++ zpSimple.zone), [ApiCall.listZones]) ∧
    vnets_main remoteEmpty true vpPresent
      = (.exited true ("Creating/updating vnet ID: " ++ vpPresent.vnet), [ApiCall.listVnets]) ∧
    subnets_main remoteEmpty true spPresent
      = (.exited true ("Creating/updating subnet ID: " ++ spPresent.subnet),
          [ApiCall.listSubnets spPresent.vnet]) :=
  C5_amended_dry_run_present_new remoteEmpty zpSimple vpPresent spPresent [] [] []
    rfl rfl rfl rfl rfl rfl (by decide) (by decide) (by decide)

/-- C6: for every resource kind, a present-state invocation when a
resource with the target identifier already exists terminates
successfully with changed=false and the already-exists message, after
only the one listing call (zero mutating calls, no comparison or
update). -/
theorem C6_present_existing_no_change (r : Remote) (cm : Bool)
    (pz : ZoneParams) (pv : VnetParams) (ps : SubnetParams)
    (lz : List ZoneEntry) (lv : List VnetEntry) (ls : List SubnetEntry)
    (hzst : pz.state = "present") (hvst : pv.state = "present") (hsst : ps.state = "present")
    (hz : r.zones = .ok lz) (hv : r.vnets = .ok lv) (hs : r.subnetsOf ps.vnet = .ok ls)
    (hzex : (lz.any fun z => z.zone == pz.zone) = true)
    (hvex : (lv.any fun v => v.vnet == pv.vnet) = true)
    (hsex : (ls.any fun s => s.subnet == ps.subnet) = true) :
    zones_main r cm pz
      = (.exited false ("Zone " ++ pz.zone ++ " already exists"), [ApiCall.listZones]) ∧
    vnets_main r cm pv
      = (.exited false ("Vnet " ++ pv.vnet ++ " already exists"), [ApiCall.listVnets]) ∧
    subnets_main r cm ps
      = (.exited false ("Subnet " ++ ps.subnet ++ " already exists"),
          [ApiCall.listSubnets ps.vnet]) := by
  refine ⟨?_, ?_, ?_⟩
  · unfold zones_main ProxmoxSdnZones.create_update_sdn_zone
      ProxmoxSdnZones.is_sdn_zone_existing
    simp [hzst, hz, hzex]
  · unfold vnets_main ProxmoxSdnVnets.create_update_sdn_vnet
      ProxmoxSdnVnets.is_sdn_vnet_existing
    simp [hvst, hv, hvex]
  · unfold subnets_main ProxmoxSdnSubnets.create_update_sdn_subnet
      ProxmoxSdnSubnets.is_sdn_subnet_existing
    simp [hsst, hs, hsex]

/-- Witness for C6 at concrete inputs: the populated remote already
holds "zone-01", "myvnet" and "172.16.10.0/24". -/
theorem C6_present_existing_no_change_witness :
    zones_main remotePopulated false zpSimple
      = (.exited false ("Zone " ++ zpSimple.zone ++ " already exists"), [ApiCall.listZones]) ∧
    vnets_main remotePopulated false vpPresent
      = (.exited false ("Vnet " ++ vpPresent.vnet ++ " already exists"), [ApiCall.listVnets]) ∧
    subnets_main remotePopulated false spPresent
      = (.exited false ("Subnet " ++ spPresent.subnet ++ " already exists"),
          [ApiCall.listSubnets spPresent.vnet]) :=
  C6_present_existing_no_change remotePopulated false zpSimple vpPresent spPresent
    [{ zone := "zone-01" }] [{ vnet := "myvnet", zone := "zone-01" }]
    [{ subnet := "172.16.10.0/24", vnet := "myvnet" }]
    rfl rfl rfl rfl rfl (by decide) (by decide) (by decide) (by decide)

/-- C7 counterexample: when the zone listing raises "boom" for zone id
"zone-01", the invocation aborts fatally with the message "Unable to
retrieve zones: boom", which names the underlying cause but does not
contain the target resource identifier, contradicting the claim that the
message names both. -/
theorem C7_counterexample_message_lacks_identifier :
    zones_main remoteBoom false zpVlan
      = (.failed "Unable to retrieve zones: boom", [ApiCall.listZones]) ∧
    containsSub "zone-01" "Unable to retrieve zones: boom" = false ∧
    containsSub "boom" "Unable to retrieve zones: boom" = true := by
  refine ⟨by decide, by decide, by decide⟩

/-- C7 (amended): for every resource kind, when the listing call used by
the existence checker raises any error, the invocation aborts as a fatal
failure (never silently treated as the resource being absent) whose
message is the fixed unable-to-retrieve wrapper around the underlying
cause; the target resource identifier is not part of the message, and no
mutating call is issued. The vnet absent branch performs no listing at
all, so for vnets only the present state exercises the checker. -/
theorem C7_amended_listing_failure_fatal (r : Remote) (cm : Bool) (e : String)
    (pz : ZoneParams) (pv : VnetParams) (ps : SubnetParams)
    (hzst : pz.state = "present" ∨ pz.state = "absent")
    (hvst : pv.state = "present")
    (hsst : ps.state = "present" ∨ ps.state = "absent")
    (hz : r.zones = .error e) (hv : r.vnets = .error e)
    (hs : r.subnetsOf ps.vnet = .error e) :
    zones_main r cm pz
      = (.failed ("Unable to retrieve zones: " ++ e), [ApiCall.listZones]) ∧
    vnets_main r cm pv
      = (.failed ("Unable to retrieve vnets: " ++ e), [ApiCall.listVnets]) ∧
    subnets_main r cm ps
      = (.failed ("Unable to retrieve subnets: " ++ e), [ApiCall.listSubnets ps.vnet]) := by
  refine ⟨?_, ?_, ?_⟩
  · rcases hzst with h | h
    · unfold zones_main ProxmoxSdnZones.create_update_sdn_zone
        ProxmoxSdnZones.is_sdn_zone_existing
      simp [h, hz]
    · unfold zones_main ProxmoxSdnZones.delete_sdn_zone
        ProxmoxSdnZones.is_sdn_zone_existing
      simp [h, hz]
  · unfold vnets_main ProxmoxSdnVnets.create_update_sdn_vnet
      ProxmoxSdnVnets.is_sdn_vnet_existing
    simp [hvst, hv]
  · rcases hsst with h | h
    · unfold subnets_main ProxmoxSdnSubnets.create_update_sdn_subnet
        ProxmoxSdnSubnets.is_sdn_subnet_existing
      simp [h, hs]
    · unfold subnets_main ProxmoxSdnSubnets.delete_sdn_vnet
        ProxmoxSdnSubnets.is_sdn_subnet_existing
      simp [h, hs]

/-- Witness for the amended C7 at concrete inputs: the all-raising
remote with cause "boom" makes each module fail with its
unable-to-retrieve message. -/
theorem C7_amended_listing_failure_fatal_witness :
    zones_main remoteBoom false zpVlan
      = (.failed ("Unable to retrieve zones: " ++ "boom"), [ApiCall.listZones]) ∧
    vnets_main remoteBoom false vpPresent
      = (.failed ("Unable to retrieve vnets: " ++ "boom"), [ApiCall.listVnets]) ∧
    subnets_main remoteBoom false spAbsent
      = (.failed ("Unable to retrieve subnets: " ++ "boom"),
          [ApiCall.listSubnets spAbsent.vnet]) :=
  C7_amended_listing_failure_fatal remoteBoom false "boom" zpVlan vpPresent spAbsent
    (Or.inl rfl) rfl (Or.inr rfl) rfl rfl rfl

/-- Every filtered list satisfies the filtering predicate. -/
theorem all_filter_self {α : Type} (l : List α) (f : α → Bool) :
    (l.filter f).all f = true := by
  rw [List.all_eq_true]
  intro a ha
  exact (List.mem_filter.mp ha).2

/-- Any create call issued by the zone create/update dispatcher carries
exactly the payload it was given. -/
theorem zone_create_payload_aux (r : Remote) (cm : Bool) (zid : String)
    (infos : List (String × PValue)) :
    ∀ pay, ApiCall.createZone pay ∈ (ProxmoxSdnZones.create_update_sdn_zone r cm zid infos).2 →
      pay = infos := by
  intro pay hmem
  have ht := zone_existing_trace r zid
  unfold ProxmoxSdnZones.create_update_sdn_zone at hmem
  split at hmem
  · rename_i o calls heq
    rw [heq] at ht; simp only at ht; subst ht
    simp at hmem
  · rename_i calls heq
    rw [heq] at ht; simp only at ht; subst ht
    simp at hmem
  · rename_i calls heq
    rw [heq] at ht; simp only at ht; subst ht
    split at hmem
    · simp at hmem
    · split at hmem
      · simp at hmem; exact hmem
      · simp at hmem; exact hmem

/-- The zone delete dispatcher never issues a create call. -/
theorem zone_delete_no_create (r : Remote) (cm : Bool) (zid : String) :
    ∀ pay, ApiCall.createZone pay ∈ (ProxmoxSdnZones.delete_sdn_zone r cm zid).2 → False := by
  intro pay hmem
  have ht := zone_existing_trace r zid
  have he := zone_empty_trace r zid
  unfold ProxmoxSdnZones.delete_sdn_zone at hmem
  split at hmem
  · rename_i o calls heq
    rw [heq] at ht; simp only at ht; subst ht
    simp at hmem
  · rename_i calls heq
    rw [heq] at ht; simp only at ht; subst ht
    simp at hmem
  · rename_i calls heq
    rw [heq] at ht; simp only at ht; subst ht
    split at hmem
    · rename_i e2 calls2 heq2
      rw [heq2] at he; simp only at he; subst he
      simp at hmem
    · rename_i calls2 heq2
      rw [heq2] at he; simp only at he; subst he
      split at hmem
      · simp at hmem
      · split at hmem
        · simp at hmem
        · simp at hmem
    · rename_i calls2 heq2
      rw [heq2] at he; simp only at he; subst he
      simp at hmem

/-- Any create call issued by the whole zone module carries exactly the
filtered payload `zone_infos_filtered`. -/
theorem zones_main_create_payload (r : Remote) (cm : Bool) (p : ZoneParams) :
    ∀ pay, ApiCall.createZone pay ∈ (zones_main r cm p).2 →
      pay = zone_infos_filtered p := by
  intro pay hmem
  unfold zones_main at hmem
  dsimp only at hmem
  split at hmem
  · split at hmem
    · rename_i o calls heq
      have := zone_create_payload_aux r cm p.zone (zone_infos_filtered p) pay
      rw [heq] at this
      exact this hmem
    · rename_i a calls heq
      have := zone_create_payload_aux r cm p.zone (zone_infos_filtered p) pay
      rw [heq] at this
      exact this hmem
  · split at hmem
    · split at hmem
      · rename_i o calls heq
        have := zone_delete_no_create r cm p.zone pay
        rw [heq] at this
        exact absurd hmem this
      · rename_i a calls heq
        have := zone_delete_no_create r cm p.zone pay
        rw [heq] at this
        exact absurd hmem this
    · simp at hmem

/-- C8: for a zone of type "simple", every create call issued by the
zone module carries a payload from which the five simple-incompatible
keys (vlan-protocol, advertise-subnets, exitnodes-local-routing,
bridge-disable-mac-learning, disable-arp-nd-suppression) are absent, for
every combination of caller-supplied attribute values. -/
theorem C8_simple_zone_strips_keys (r : Remote) (cm : Bool) (p : ZoneParams)
    (hty : p.type = "simple") :
    ∀ pay, ApiCall.createZone pay ∈ (zones_main r cm p).2 →
      (pay.all fun kv => !(unexpected_properties.contains kv.fst)) = true := by
  intro pay hmem
  rw [zones_main_create_payload r cm p pay hmem]
  unfold zone_infos_filtered
  rw [hty]
  simp only [beq_self_eq_true, if_true]
  exact all_filter_self _ _

/-- Witness for C8 at a concrete input: creating the simple zone
"zone-01" on the empty remote issues one create call, and its payload
contains none of the five stripped keys. -/
theorem C8_simple_zone_strips_keys_witness :
    zpSimple.type = "simple" ∧
    ApiCall.createZone (zone_infos_filtered zpSimple)
      ∈ (zones_main remoteEmpty false zpSimple).2 ∧
    ((zone_infos_filtered zpSimple).all
      fun kv => !(unexpected_properties.contains kv.fst)) = true :=
  ⟨rfl, by decide,
    C8_simple_zone_strips_keys remoteEmpty false zpSimple rfl
      (zone_infos_filtered zpSimple) (by decide)⟩

/-- The counting loop shared by both emptiness checkers computes
`countP`, whatever the accumulator start. -/
theorem foldl_count_eq_countP {α : Type} (f : α → Bool) (l : List α) (n : Nat) :
    l.foldl (fun v e => if f e then v + 1 else v) n = n + l.countP f := by
  induction l generalizing n with
  | nil => simp
  | cons a t ih =>
      simp only [List.foldl_cons, List.countP_cons]
      by_cases h : f a = true
      · rw [if_pos h, ih, if_pos h]
        omega
      · rw [if_neg h, ih, if_neg h]
        omega

/-- C9: each emptiness checker (zone over the vnet listing, vnet over
the subnet listing) returns true exactly when the number of entries of
the child listing whose parent-reference field equals the candidate
identifier is zero. -/
theorem C9_emptiness_iff_zero_children (r : Remote) (zid vid : String)
    (lv : List VnetEntry) (ls : List SubnetEntry)
    (hv : r.vnets = .ok lv) (hs : r.subnetsOf vid = .ok ls) :
    ((ProxmoxSdnZones.is_sdn_zone_empty r zid).1 = .ok true ↔
      lv.countP (fun vnet => vnet.zone == zid) = 0) ∧
    ((ProxmoxSdnVnets.is_sdn_vnet_empty r vid).1 = .ok true ↔
      ls.countP (fun subnet => subnet.vnet == vid) = 0) := by
  constructor
  · unfold ProxmoxSdnZones.is_sdn_zone_empty
    rw [hv]
    dsimp only
    rw [foldl_count_eq_countP]
    simp
  · unfold ProxmoxSdnVnets.is_sdn_vnet_empty
    rw [hs]
    dsimp only
    rw [foldl_count_eq_countP]
    simp

/-- Witness for C9 at concrete inputs: on the populated remote, the zone
"zone-01" has one vnet child and "zone-99" has none; the iff is applied
at "zone-99" and "myvnet". -/
theorem C9_emptiness_iff_zero_children_witness :
    ((ProxmoxSdnZones.is_sdn_zone_empty remotePopulated "zone-99").1 = .ok true ↔
      ([{ vnet := "myvnet", zone := "zone-01" }] : List VnetEntry).countP
        (fun vnet => vnet.zone == "zone-99") = 0) ∧
    ((ProxmoxSdnVnets.is_sdn_vnet_empty remotePopulated "myvnet").1 = .ok true ↔
      ([{ subnet := "172.16.10.0/24", vnet := "myvnet" }] : List SubnetEntry).countP
        (fun subnet => subnet.vnet == "myvnet") = 0) :=
  C9_emptiness_iff_zero_children remotePopulated "zone-99" "myvnet"
    [{ vnet := "myvnet", zone := "zone-01" }]
    [{ subnet := "172.16.10.0/24", vnet := "myvnet" }] rfl (by decide)

/-- C10 counterexample: with zone type "simple" and no boolean flag
supplied, the translated create payload does not contain the
advertise-subnets key at all (the simple-type filter removed it), so the
payload does not always contain every boolean flag key. The full run on
the empty remote confirms this payload is exactly what the create call
carries. -/
theorem C10_counterexample_simple_omits_flag :
    zpSimple.advertise_subnets = none ∧
    ((zone_infos_filtered zpSimple).any fun kv => kv.fst == "advertise-subnets") = false ∧
    zones_main remoteEmpty false zpSimple
      = (.exited true "Creating/updating zone ID: zone-01",
          [ApiCall.listZones, ApiCall.createZone (zone_infos_filtered zpSimple)]) := by
  refine ⟨rfl, by decide, by decide⟩

/-- C10 (amended): every boolean flag is coerced to 0 when unsupplied
(and otherwise to 0/1) and is included under its hyphenated key in the
constructed payload; this reaches the create call unchanged for the vnet
and subnet kinds and for every zone type other than "simple", where the
filter of the simple type instead removes the four zone flag keys. -/
theorem C10_amended_flags_coerced_and_kept (pz : ZoneParams) (pv : VnetParams)
    (ps : SubnetParams) (hty : pz.type ≠ "simple") :
    zone_infos_filtered pz = zone_infos pz ∧
    ("advertise-subnets", PValue.num (coerceBool pz.advertise_subnets))
      ∈ zone_infos_filtered pz ∧
    ("bridge-disable-mac-learning", PValue.num (coerceBool pz.bridge_disable_mac_learning))
      ∈ zone_infos_filtered pz ∧
    ("exitnodes-local-routing", PValue.num (coerceBool pz.exitnodes_local_routing))
      ∈ zone_infos_filtered pz ∧
    ("disable-arp-nd-suppression", PValue.num (coerceBool pz.disable_arp_nd_suppression))
      ∈ zone_infos_filtered pz ∧
    ("vlanaware", PValue.num (coerceBool pv.vlanaware)) ∈ vnet_infos pv ∧
    ("snat", PValue.num (coerceBool ps.snat)) ∈ subnet_infos ps ∧
    coerceBool none = 0 ∧
    (∀ b : Option Bool, coerceBool b = 0 ∨ coerceBool b = 1) := by
  have hfe : zone_infos_filtered pz = zone_infos pz := by
    unfold zone_infos_filtered
    rw [if_neg]
    simp [hty]
  refine ⟨hfe, ?_, ?_, ?_, ?_, ?_, ?_, rfl, ?_⟩
  · rw [hfe]; simp [zone_infos]
  · rw [hfe]; simp [zone_infos]
  · rw [hfe]; simp [zone_infos]
  · rw [hfe]; simp [zone_infos]
  · simp [vnet_infos]
  · simp [subnet_infos]
  · intro b
    rcases b with _ | b
    · exact Or.inl rfl
    · rcases b with _ | _
      · exact Or.inl rfl
      · exact Or.inr rfl

/-- Witness for the amended C10 at concrete inputs: the vlan-type zone
parameters and the vnet/subnet parameters with no flag supplied. -/
theorem C10_amended_flags_coerced_and_kept_witness :
    zone_infos_filtered zpVlan = zone_infos zpVlan ∧
    ("advertise-subnets", PValue.num (coerceBool zpVlan.advertise_subnets))
      ∈ zone_infos_filtered zpVlan ∧
    ("bridge-disable-mac-learning", PValue.num (coerceBool zpVlan.bridge_disable_mac_learning))
      ∈ zone_infos_filtered zpVlan ∧
    ("exitnodes-local-routing", PValue.num (coerceBool zpVlan.exitnodes_local_routing))
      ∈ zone_infos_filtered zpVlan ∧
    ("disable-arp-nd-suppression", PValue.num (coerceBool zpVlan.disable_arp_nd_suppression))
      ∈ zone_infos_filtered zpVlan ∧
    ("vlanaware", PValue.num (coerceBool vpPresent.vlanaware)) ∈ vnet_infos vpPresent ∧
    ("snat", PValue.num (coerceBool spPresent.snat)) ∈ subnet_infos spPresent ∧
    coerceBool none = 0 ∧
    (∀ b : Option Bool, coerceBool b = 0 ∨ coerceBool b = 1) :=
  C10_amended_flags_coerced_and_kept zpVlan vpPresent spPresent (by decide)
